import Mathlib

/-!
Verification development for the mock-interview practice application.

The embedding below models, from the TypeScript source:
  - `src/lib/gemini.ts`: question generation (`generateDefaultQuestions`,
    `shuffleArray`, `generateInterviewQuestions`), the feedback stub
    (`generateDefaultFeedback`, `analyzeResponse`) and the transcription stub
    (`transcribeMedia`);
  - the server actions (`createInterviewWithQuestions`,
    `generateAndSaveQuestions`, `saveResponseWithFeedback`,
    `completeInterview`);
  - the client session component `InterviewSession`
    (`handleNextQuestion`, `saveResponse`, the initial cursor state);
  - the results component (`getOverallScore`).

JavaScript strings are modelled by `String`, nullable strings by
`Option String` with JS truthiness (`null` and `""` falsy), numbers by `ℚ`,
`Math.random`-driven choices by an explicit `seed : Nat → Nat` argument, and
the fallible storage operations by explicit success flags.
-/

namespace MockInterview

/-- A generated question as produced by `generateDefaultQuestions`:
an object with `question_text` and `question_type` fields. -/
structure GenQuestion where
  question_text : String
  question_type : String
deriving DecidableEq

/-- JS `s || d` on a nullable string: `null` and `""` are falsy. -/
def jsOrString (s : Option String) (d : String) : String :=
  match s with
  | none => d
  | some t => if t = "" then d else t

/-- JS truthiness of a nullable string (`null` and `""` falsy). -/
def jsTruthyStr (s : Option String) : Bool :=
  match s with
  | none => false
  | some t => t ≠ ""

/-- The five base questions of `generateDefaultQuestions` (gemini.ts lines
7-28); template literals become string appends. -/
def baseQuestions (jobRole : String) (industry : Option String) : List GenQuestion :=
  [ { question_text := "Tell me about your experience as a " ++ jobRole ++ ".",
      question_type := "behavioral" },
    { question_text := "What are the key skills required for a " ++ jobRole ++ " position?",
      question_type := "general" },
    { question_text := "Describe a challenging situation you faced in your previous role.",
      question_type := "behavioral" },
    { question_text := "How do you stay updated with the latest trends in " ++
        jsOrString industry "your field" ++ "?",
      question_type := "general" },
    { question_text := "Where do you see yourself in 5 years?",
      question_type := "general" } ]

/-- The role-specific question table of `generateDefaultQuestions` (gemini.ts
lines 31-176); the record lookup `roleSpecificQuestions[jobRole] || []`
becomes an equality chain ending in `[]`. -/
def roleSpecificQuestions (jobRole : String) : List GenQuestion :=
  if jobRole = "Software Engineer" then
    [ { question_text := "Explain the difference between a stack and a queue. When would you use each?",
        question_type := "technical" },
      { question_text := "How would you optimize a slow-loading web application?",
        question_type := "technical" },
      { question_text := "Describe a time when you had to refactor a large codebase. What approach did you take?",
        question_type := "behavioral" },
      { question_text := "How do you ensure your code is maintainable and readable for other developers?",
        question_type := "situational" } ]
  else if jobRole = "Product Manager" then
    [ { question_text := "How do you prioritize features in your product roadmap?",
        question_type := "situational" },
      { question_text := "Describe a time when you had to make a difficult product decision based on user feedback.",
        question_type := "behavioral" },
      { question_text := "How do you measure the success of a product feature after launch?",
        question_type := "technical" },
      { question_text := "How do you balance stakeholder requests with user needs?",
        question_type := "situational" } ]
  else if jobRole = "Data Scientist" then
    [ { question_text := "Explain the difference between supervised and unsupervised learning.",
        question_type := "technical" },
      { question_text := "How would you handle missing data in a dataset?",
        question_type := "technical" },
      { question_text := "Describe a time when your data analysis led to a significant business decision.",
        question_type := "behavioral" },
      { question_text := "How do you communicate complex data findings to non-technical stakeholders?",
        question_type := "situational" } ]
  else if jobRole = "UX Designer" then
    [ { question_text := "Walk me through your design process from research to implementation.",
        question_type := "technical" },
      { question_text := "How do you incorporate user feedback into your designs?",
        question_type := "situational" },
      { question_text := "Describe a time when you had to defend a design decision to stakeholders.",
        question_type := "behavioral" },
      { question_text := "How do you balance aesthetic design with usability?",
        question_type := "situational" } ]
  else if jobRole = "Marketing Manager" then
    [ { question_text := "How do you measure the success of a marketing campaign?",
        question_type := "technical" },
      { question_text := "Describe a marketing campaign you led that didn't meet expectations. What did you learn?",
        question_type := "behavioral" },
      { question_text := "How would you allocate a limited marketing budget across different channels?",
        question_type := "situational" },
      { question_text := "How do you stay ahead of changing marketing trends and technologies?",
        question_type := "general" } ]
  else if jobRole = "Sales Representative" then
    [ { question_text := "How do you handle objections from potential customers?",
        question_type := "situational" },
      { question_text := "Describe your sales process from prospecting to closing.",
        question_type := "technical" },
      { question_text := "Tell me about a time when you lost a sale. What did you learn?",
        question_type := "behavioral" },
      { question_text := "How do you build long-term relationships with clients?",
        question_type := "situational" } ]
  else if jobRole = "Project Manager" then
    [ { question_text := "How do you handle scope creep in a project?",
        question_type := "situational" },
      { question_text := "Describe a time when you had to manage a project with limited resources.",
        question_type := "behavioral" },
      { question_text := "What project management methodologies are you familiar with, and when do you use each?",
        question_type := "technical" },
      { question_text := "How do you communicate project status to stakeholders?",
        question_type := "situational" } ]
  else if jobRole = "Customer Support Specialist" then
    [ { question_text := "How do you handle an angry or frustrated customer?",
        question_type := "situational" },
      { question_text := "Describe a time when you went above and beyond for a customer.",
        question_type := "behavioral" },
      { question_text := "How do you prioritize multiple customer issues?",
        question_type := "situational" },
      { question_text := "What metrics do you use to measure customer satisfaction?",
        question_type := "technical" } ]
  else []

/-- Case-insensitive prefix test: does lowercase pattern `p` start the
lowercased text `s`? Models one position of a case-insensitive regex match. -/
def ciStartsWith (p : List Char) (s : List Char) : Bool :=
  p.isPrefixOf (s.map Char.toLower)

/-- JS `s.replace(/p1|p2|.../i, repl)`: find the leftmost position where one
of the lowercase patterns matches case-insensitively (alternatives tried in
order at each position), replace that single occurrence, leave the rest. -/
def replaceFirstCI (pats : List (List Char)) (repl : List Char) : List Char → List Char
  | [] => []
  | c :: cs =>
    match pats.find? (fun p => ciStartsWith p (c :: cs)) with
    | some p => repl ++ (c :: cs).drop p.length
    | none => c :: replaceFirstCI pats repl cs

/-- String wrapper for `replaceFirstCI`. -/
def jsReplaceCI (pats : List String) (repl : String) (s : String) : String :=
  (replaceFirstCI (pats.map String.toList) repl.toList s.toList).asString

/-- The per-question difficulty adjustment of `generateDefaultQuestions`
(gemini.ts lines 185-207): for `"advanced"` rewrite technical questions with
`replace(/how|explain|describe/i, "Provide an in-depth explanation of")`, for
`"beginner"` with `replace(/explain|describe/i, "Briefly explain")`, leave
everything else unchanged (the outer `if (difficulty)` truthiness guard
collapses into the two equality tests). -/
def adjustQuestion (difficulty : Option String) (q : GenQuestion) : GenQuestion :=
  if difficulty = some "advanced" then
    if q.question_type = "technical" then
      { q with question_text :=
          jsReplaceCI ["how", "explain", "describe"] "Provide an in-depth explanation of" q.question_text }
    else q
  else if difficulty = some "beginner" then
    if q.question_type = "technical" then
      { q with question_text := jsReplaceCI ["explain", "describe"] "Briefly explain" q.question_text }
    else q
  else q

/-- `[...baseQuestions, ...specificQuestions]` (gemini.ts line 182). -/
def combinedQuestions (jobRole : String) (industry : Option String) : List GenQuestion :=
  baseQuestions jobRole industry ++ roleSpecificQuestions jobRole

/-- One step of the JS destructuring swap `[a[i], a[j]] = [a[j], a[i]]`. -/
def listSwap {α : Type} (l : List α) (i j : Nat) : List α :=
  match l[i]?, l[j]? with
  | some a, some b => (l.set i b).set j a
  | _, _ => l

/-- The Fisher-Yates loop of `shuffleArray` (gemini.ts lines 216-219), for
indices `i, i-1, ..., 1`; the call `Math.floor(Math.random() * (i + 1))` is
modelled by `seed i % (i + 1)`, so any sequence of draws is expressible. -/
def fisherYatesAux {α : Type} (seed : Nat → Nat) : Nat → List α → List α
  | 0, l => l
  | i + 1, l => fisherYatesAux seed i (listSwap l (i + 1) (seed (i + 1) % (i + 2)))

/-- `shuffleArray` (gemini.ts lines 214-221). -/
def shuffleArray {α : Type} (seed : Nat → Nat) (l : List α) : List α :=
  fisherYatesAux seed (l.length - 1) l

/-- `generateDefaultQuestions` (gemini.ts lines 5-211): combine base and
role-specific questions, adjust for difficulty, shuffle, truncate to 7. -/
def generateDefaultQuestions (seed : Nat → Nat) (jobRole : String)
    (industry : Option String) (difficulty : Option String) : List GenQuestion :=
  (shuffleArray seed ((combinedQuestions jobRole industry).map (adjustQuestion difficulty))).take 7

/-- `generateInterviewQuestions` (gemini.ts lines 235-255): the `try` body
always returns the default questions, so the `catch` path is dead; the
`count` argument is accepted and never used. -/
def generateInterviewQuestions (seed : Nat → Nat) (jobRole : String)
    (industry : Option String) (difficulty : Option String) (count : Nat) : List GenQuestion :=
  generateDefaultQuestions seed jobRole industry difficulty

/-- Number of questions typed `technical`. -/
def countTechnical (qs : List GenQuestion) : Nat :=
  qs.countP (fun q => q.question_type == "technical")

/-- A draw sequence that sends the two technical Software-Engineer questions
(positions 5 and 6 of the combined list) to positions 7 and 8, which the
`slice(0, 7)` truncation then drops. -/
def seedDropTech : Nat → Nat :=
  fun i => if i = 8 then 6 else if i = 7 then 5 else i

/-- Swapping two positions never changes how often an element occurs. -/
theorem count_listSwap {α : Type} [DecidableEq α] (l : List α) (i j : Nat) (x : α) :
    (listSwap l i j).count x = l.count x := by
  unfold listSwap
  cases hi : l[i]? with
  | none => cases l[j]? <;> rfl
  | some a =>
    cases hj : l[j]? with
    | none => rfl
    | some b =>
      show ((l.set i b).set j a).count x = l.count x
      obtain ⟨h1, ha⟩ := List.getElem?_eq_some.mp hi
      obtain ⟨h2, hb⟩ := List.getElem?_eq_some.mp hj
      have h2' : j < (l.set i b).length := by simpa using h2
      have hset : getElem (l.set i b) j h2' = b := by
        by_cases hij : i = j
        · subst hij; simp
        · rw [List.getElem_set_ne hij]; exact hb
      have e1 := List.count_set b x l i h1
      have e2 := List.count_set a x (l.set i b) j h2'
      rw [hset] at e2
      rw [ha] at e1
      have hmem1 : a ∈ l := ha ▸ List.getElem_mem h1
      have hmem2 : b ∈ l := hb ▸ List.getElem_mem h2
      have hc1 : a = x → 1 ≤ l.count x := fun h => List.one_le_count_iff.mpr (h ▸ hmem1)
      have hc2 : b = x → 1 ≤ l.count x := fun h => List.one_le_count_iff.mpr (h ▸ hmem2)
      by_cases hax : a = x
      · subst hax
        by_cases hbx : b = a
        · subst hbx
          simp at e1 e2
          have := hc1 rfl
          omega
        · simp [beq_eq_false_iff_ne.mpr hbx] at e1 e2
          have := hc1 rfl
          omega
      · by_cases hbx : b = x
        · subst hbx
          simp [beq_eq_false_iff_ne.mpr hax] at e1 e2
          have := hc2 rfl
          omega
        · simp [beq_eq_false_iff_ne.mpr hax, beq_eq_false_iff_ne.mpr hbx] at e1 e2
          omega

/-- Swapping two positions permutes the list. -/
theorem listSwap_perm {α : Type} [DecidableEq α] (l : List α) (i j : Nat) :
    List.Perm (listSwap l i j) l :=
  List.perm_iff_count.mpr (fun x => count_listSwap l i j x)

/-- Every run of the Fisher-Yates loop permutes its input. -/
theorem fisherYatesAux_perm {α : Type} [DecidableEq α] (seed : Nat → Nat) :
    ∀ (k : Nat) (l : List α), List.Perm (fisherYatesAux seed k l) l := by
  intro k
  induction k with
  | zero => intro l; exact List.Perm.refl l
  | succ i ih =>
    intro l
    exact (ih _).trans (listSwap_perm l (i + 1) (seed (i + 1) % (i + 2)))

/-- `shuffleArray` returns a permutation of its input, for every draw
sequence. -/
theorem shuffleArray_perm {α : Type} [DecidableEq α] (seed : Nat → Nat) (l : List α) :
    List.Perm (shuffleArray seed l) l :=
  fisherYatesAux_perm seed (l.length - 1) l

theorem shuffleArray_length {α : Type} [DecidableEq α] (seed : Nat → Nat) (l : List α) :
    (shuffleArray seed l).length = l.length :=
  (shuffleArray_perm seed l).length_eq

/-- The role table yields 4 questions for the eight known roles and none
otherwise. -/
theorem roleSpecific_length (r : String) :
    (roleSpecificQuestions r).length = 0 ∨ (roleSpecificQuestions r).length = 4 := by
  unfold roleSpecificQuestions
  split_ifs <;> first | exact Or.inl rfl | exact Or.inr rfl

/-- Difficulty adjustment never changes a question's type. -/
theorem adjustQuestion_type (d : Option String) (q : GenQuestion) :
    (adjustQuestion d q).question_type = q.question_type := by
  unfold adjustQuestion
  split_ifs <;> rfl

/-- Difficulty adjustment leaves non-technical questions untouched. -/
theorem adjustQuestion_of_not_technical (d : Option String) (q : GenQuestion)
    (h : q.question_type ≠ "technical") : adjustQuestion d q = q := by
  unfold adjustQuestion
  split_ifs <;> rfl

/-- No base question is technical. -/
theorem base_not_technical (jobRole : String) (industry : Option String) :
    ∀ q ∈ baseQuestions jobRole industry, q.question_type ≠ "technical" := by
  intro q hq
  simp only [baseQuestions, List.mem_cons, List.not_mem_nil, or_false] at hq
  rcases hq with rfl | rfl | rfl | rfl | rfl <;>
    first
    | exact (by decide : ("behavioral" : String) ≠ "technical")
    | exact (by decide : ("general" : String) ≠ "technical")

/-- The base questions are never technical, so difficulty adjustment fixes
them pointwise. -/
theorem map_adjust_base (d : Option String) (jobRole : String) (industry : Option String) :
    (baseQuestions jobRole industry).map (adjustQuestion d) = baseQuestions jobRole industry := by
  have h : (baseQuestions jobRole industry).map (adjustQuestion d)
      = (baseQuestions jobRole industry).map id :=
    List.map_congr_left (fun q hq =>
      adjustQuestion_of_not_technical d q (base_not_technical jobRole industry q hq))
  simpa using h

theorem data_nil_iff (s : String) : s.data = [] ↔ s = "" := by
  constructor
  · intro h
    cases s with
    | mk d =>
      subst h
      rfl
  · intro h
    rw [h]

/-- A string append with a non-empty left part is non-empty. -/
theorem append_ne_empty_left (a b : String) (h : a ≠ "") : a ++ b ≠ "" := by
  intro hab
  apply h
  have hdata : (a ++ b).data = a.data ++ b.data := rfl
  rw [hab] at hdata
  exact (data_nil_iff a).mp (List.append_eq_nil.mp hdata.symm).1

/-- Replacing the first case-insensitive match keeps a non-empty text
non-empty, as long as the replacement itself is non-empty. -/
theorem replaceFirstCI_ne_nil (pats : List (List Char)) (repl : List Char)
    (s : List Char) (hr : repl ≠ []) (hs : s ≠ []) : replaceFirstCI pats repl s ≠ [] := by
  cases s with
  | nil => exact absurd rfl hs
  | cons c cs =>
    unfold replaceFirstCI
    cases pats.find? (fun p => ciStartsWith p (c :: cs)) with
    | none => simp
    | some p => simp [List.append_eq_nil, hr]

theorem jsReplaceCI_ne_empty (pats : List String) (repl s : String)
    (hr : repl ≠ "") (hs : s ≠ "") : jsReplaceCI pats repl s ≠ "" := by
  intro h
  have hl : replaceFirstCI (pats.map String.toList) repl.toList s.toList ≠ [] := by
    apply replaceFirstCI_ne_nil
    · intro hx
      exact hr ((data_nil_iff repl).mp hx)
    · intro hx
      exact hs ((data_nil_iff s).mp hx)
  exact hl ((data_nil_iff _).mpr h)

/-- Difficulty adjustment keeps a non-empty question text non-empty. -/
theorem adjustQuestion_text_ne_empty (d : Option String) (q : GenQuestion)
    (h : q.question_text ≠ "") : (adjustQuestion d q).question_text ≠ "" := by
  unfold adjustQuestion
  split_ifs <;>
    first
    | exact h
    | exact jsReplaceCI_ne_empty _ _ _ (by decide) h

/-- Every base question has non-empty text, whatever the role and industry
strings are. -/
theorem base_text_ne_empty (jobRole : String) (industry : Option String) :
    ∀ q ∈ baseQuestions jobRole industry, q.question_text ≠ "" := by
  intro q hq
  simp only [baseQuestions, List.mem_cons, List.not_mem_nil, or_false] at hq
  rcases hq with rfl | rfl | rfl | rfl | rfl
  · exact append_ne_empty_left _ _ (append_ne_empty_left _ _ (by decide))
  · exact append_ne_empty_left _ _ (append_ne_empty_left _ _ (by decide))
  · decide
  · exact append_ne_empty_left _ _ (append_ne_empty_left _ _ (by decide))
  · decide

/-- Every role-specific question has non-empty text. -/
theorem roleSpecific_text_ne_empty (r : String) :
    ∀ q ∈ roleSpecificQuestions r, q.question_text ≠ "" := by
  intro q hq
  unfold roleSpecificQuestions at hq
  split_ifs at hq <;> simp at hq <;> (rcases hq with rfl | rfl | rfl | rfl <;> decide)

/-- The generated list has exactly 5 questions (unknown role) or exactly 7
(known role, the 9 combined questions truncated by `slice(0, 7)`). -/
theorem generate_length_cases (seed : Nat → Nat) (jobRole : String)
    (industry difficulty : Option String) :
    (generateDefaultQuestions seed jobRole industry difficulty).length = 5 ∨
    (generateDefaultQuestions seed jobRole industry difficulty).length = 7 := by
  unfold generateDefaultQuestions
  rw [List.length_take, shuffleArray_length, List.length_map]
  have hc : (combinedQuestions jobRole industry).length
      = 5 + (roleSpecificQuestions jobRole).length := by
    simp [combinedQuestions, baseQuestions]
    omega
  rw [hc]
  rcases roleSpecific_length jobRole with h | h <;> rw [h]
  · left; decide
  · right; decide

/-- Every question the generator emits comes from the adjusted combined
list. -/
theorem mem_generate (seed : Nat → Nat) (jobRole : String)
    (industry difficulty : Option String) (q : GenQuestion)
    (hq : q ∈ generateDefaultQuestions seed jobRole industry difficulty) :
    ∃ q0 ∈ combinedQuestions jobRole industry, q = adjustQuestion difficulty q0 := by
  unfold generateDefaultQuestions at hq
  have hq1 := List.take_subset _ _ hq
  have hq2 := (shuffleArray_perm seed _).mem_iff.mp hq1
  obtain ⟨q0, hq0, heq⟩ := List.mem_map.mp hq2
  exact ⟨q0, hq0, heq.symm⟩

/-- Claim C8, counterexample: with the draw sequence `seedDropTech`, advanced
generation for "Software Engineer" returns 0 technical questions while the
unmodified base + role-specific set has 2 — the shuffle can park both
technical questions in the two positions that `slice(0, 7)` drops, so the
claim is false of the generator's output. -/
theorem advanced_generation_can_drop_technical_questions :
    countTechnical (generateDefaultQuestions seedDropTech "Software Engineer" none (some "advanced")) <
      countTechnical (combinedQuestions "Software Engineer" none) := by
  decide

/-- Claim C8, amended: the advanced-difficulty adjustment step itself never
changes a question's type, so before the shuffle-and-truncate step the
adjusted combined list has exactly as many technical questions as the
unmodified base + role-specific set, for every job role and industry. -/
theorem advanced_adjustment_preserves_technical_count (jobRole : String)
    (industry : Option String) :
    countTechnical ((combinedQuestions jobRole industry).map (adjustQuestion (some "advanced"))) =
      countTechnical (combinedQuestions jobRole industry) := by
  unfold countTechnical
  rw [List.countP_map]
  apply List.countP_congr
  intro q hq
  simp [Function.comp, adjustQuestion_type]

/-- Claim C9, counterexample: the requested count is ignored, so a request
for 1 question returns 5 and the claimed bound `length ≤ count` fails. -/
theorem generator_ignores_requested_count :
    ¬ (generateInterviewQuestions (fun _ => 0) "Nurse" none none 1).length ≤ 1 := by
  decide

/-- Claim C9, amended: for every input (and any requested count, which the
implementation ignores) the generator returns between 1 and 7 questions,
each with non-empty question text; the bound `length ≤ count` does not hold. -/
theorem generator_returns_one_to_seven_nonempty_questions (seed : Nat → Nat)
    (jobRole : String) (industry difficulty : Option String) (count : Nat) :
    1 ≤ (generateInterviewQuestions seed jobRole industry difficulty count).length ∧
    (generateInterviewQuestions seed jobRole industry difficulty count).length ≤ 7 ∧
    ∀ q ∈ generateInterviewQuestions seed jobRole industry difficulty count,
      q.question_text ≠ "" := by
  refine ⟨?_, ?_, ?_⟩
  · have h := generate_length_cases seed jobRole industry difficulty
    unfold generateInterviewQuestions
    omega
  · have h := generate_length_cases seed jobRole industry difficulty
    unfold generateInterviewQuestions
    omega
  · intro q hq
    obtain ⟨q0, hq0, rfl⟩ := mem_generate seed jobRole industry difficulty q hq
    apply adjustQuestion_text_ne_empty
    rcases List.mem_append.mp (by simpa [combinedQuestions] using hq0) with hb | hr
    · exact base_text_ne_empty jobRole industry q0 hb
    · exact roleSpecific_text_ne_empty jobRole q0 hr

/-- Claim C10: the generator always returns at least 5 questions (the 5 base
questions are always included and the cap is 7), and for a job role with no
role-specific entry the output is exactly a permutation of the 5 base
questions, for every draw sequence, industry and difficulty. -/
theorem generator_returns_at_least_five_and_base_permutation (seed : Nat → Nat)
    (jobRole : String) (industry difficulty : Option String) :
    5 ≤ (generateDefaultQuestions seed jobRole industry difficulty).length ∧
    (roleSpecificQuestions jobRole = [] →
      List.Perm (generateDefaultQuestions seed jobRole industry difficulty)
        (baseQuestions jobRole industry)) := by
  constructor
  · have h := generate_length_cases seed jobRole industry difficulty
    omega
  · intro h0
    unfold generateDefaultQuestions combinedQuestions
    rw [h0, List.append_nil, map_adjust_base]
    have hl : (shuffleArray seed (baseQuestions jobRole industry)).length = 5 := by
      rw [shuffleArray_length]
      rfl
    rw [List.take_of_length_le (by rw [hl]; omega)]
    exact shuffleArray_perm seed (baseQuestions jobRole industry)

/-- The analysis object returned by `generateDefaultFeedback` (gemini.ts
lines 224-232). -/
structure FeedbackOut where
  feedback_text : String
  strengths : List String
  improvement_areas : List String
  confidence_score : ℚ
deriving DecidableEq

/-- `generateDefaultFeedback` (gemini.ts lines 224-232): a fixed canned
result with confidence 0.7. -/
def generateDefaultFeedback : FeedbackOut :=
  { feedback_text := "Your response addresses the question, but could be more specific and detailed. Consider providing concrete examples from your experience to support your points. Overall, your answer demonstrates a good understanding of the topic, but adding more depth would make it stronger.",
    strengths := ["Good communication", "Relevant points", "Clear structure"],
    improvement_areas := ["Add more specific examples", "Elaborate on key points", "Connect to the job role"],
    confidence_score := 7 / 10 }

/-- `analyzeResponse` (gemini.ts lines 258-278): the `try` body always
returns `generateDefaultFeedback()`, and so does the `catch` handler, so the
function is total and never surfaces a failure. -/
def analyzeResponse (question response responseType jobRole : String) : FeedbackOut :=
  generateDefaultFeedback

/-- The fixed text `transcribeMedia` returns on both its `try` and `catch`
paths (gemini.ts lines 290 and 293). -/
def defaultTranscript : String :=
  "I believe I'm well-suited for this position because of my experience and skills in this field. I've worked on similar projects in the past and have developed the necessary expertise to handle the challenges of this role effectively."

/-- `transcribeMedia` (gemini.ts lines 281-295): total, always the fixed
simulated transcription. -/
def transcribeMedia (mediaUrl mediaType : String) : String :=
  defaultTranscript

/-- A persisted Feedback row as the results page receives it
(interview-results.tsx lines 22-30). -/
structure FeedbackRec where
  feedback_text : String
  strengths : Option (List String)
  improvement_areas : Option (List String)
  confidence_score : Option ℚ
deriving DecidableEq

/-- A persisted Response with its nested feedback
(interview-results.tsx lines 15-31). -/
structure ResponseRec where
  response_type : String
  response_text : Option String
  media_url : Option String
  feedback : List FeedbackRec
deriving DecidableEq

/-- A Question with its nested responses (interview-results.tsx lines
14-32). -/
structure QuestionRec where
  question_text : String
  question_type : Option String
  responses : List ResponseRec
deriving DecidableEq

/-- One iteration of the accumulation in `getOverallScore`
(interview-results.tsx lines 93-98): `if (feedback.confidence_score)` is JS
truthiness, skipping both a missing score and a score of exactly 0. -/
def scoreStep (acc : ℚ × Nat) (f : FeedbackRec) : ℚ × Nat :=
  match f.confidence_score with
  | none => acc
  | some c => if c = 0 then acc else (acc.1 + c, acc.2 + 1)

/-- `getOverallScore` (interview-results.tsx lines 87-103). -/
def getOverallScore (questions : List QuestionRec) : ℚ :=
  ((fun acc => if acc.2 > 0 then acc.1 / (acc.2 : ℚ) * 100 else 0)
    (questions.foldl
      (fun a q => q.responses.foldl (fun a r => r.feedback.foldl scoreStep a) a)
      ((0 : ℚ), (0 : Nat))))

/-- All Feedback records of a result set, in traversal order. -/
def allFeedbackRecs (questions : List QuestionRec) : List FeedbackRec :=
  (questions.map (fun q => (q.responses.map (fun r => r.feedback)).flatten)).flatten

/-- The non-null confidence scores, in traversal order. -/
def presentConfidenceScores (questions : List QuestionRec) : List ℚ :=
  (allFeedbackRecs questions).filterMap (fun f => f.confidence_score)

/-- Stated from the claim: overall score as the mean of all PRESENT
confidence scores scaled to 0-100, with the empty case guarded to 0. -/
def specOverallScorePresent (questions : List QuestionRec) : ℚ :=
  if presentConfidenceScores questions = [] then 0
  else (presentConfidenceScores questions).sum /
    ((presentConfidenceScores questions).length : ℚ) * 100

/-- Stated from the claim as amended: overall score as the mean of all
present AND non-zero (JS-truthy) confidence scores scaled to 0-100, with the
empty case guarded to 0. -/
def specOverallScoreTruthy (questions : List QuestionRec) : ℚ :=
  if (presentConfidenceScores questions).filter (fun c => c ≠ 0) = [] then 0
  else ((presentConfidenceScores questions).filter (fun c => c ≠ 0)).sum /
    (((presentConfidenceScores questions).filter (fun c => c ≠ 0)).length : ℚ) * 100

/-- The scores one feedback list contributes to the accumulator. -/
def scoredOfFeedback (fs : List FeedbackRec) : List ℚ :=
  (fs.filterMap (fun f => f.confidence_score)).filter (fun c => c ≠ 0)

theorem foldl_scoreStep (fs : List FeedbackRec) :
    ∀ a : ℚ × Nat, fs.foldl scoreStep a
      = (a.1 + (scoredOfFeedback fs).sum, a.2 + (scoredOfFeedback fs).length) := by
  induction fs with
  | nil => intro a; simp [scoredOfFeedback]
  | cons f t ih =>
    intro a
    rw [List.foldl_cons]
    cases hc : f.confidence_score with
    | none => simp [scoreStep, hc, scoredOfFeedback, List.filterMap_cons, ih]
    | some c =>
      by_cases h0 : c = 0
      · simp [scoreStep, hc, h0, scoredOfFeedback, List.filterMap_cons, List.filter_cons, ih]
      · simp [scoreStep, hc, h0, scoredOfFeedback, List.filterMap_cons, List.filter_cons, ih,
          add_assoc, Nat.add_comm]

theorem foldl_responses (rs : List ResponseRec) :
    ∀ a : ℚ × Nat, rs.foldl (fun a r => r.feedback.foldl scoreStep a) a
      = (a.1 + ((rs.map (fun r => scoredOfFeedback r.feedback)).flatten).sum,
         a.2 + ((rs.map (fun r => scoredOfFeedback r.feedback)).flatten).length) := by
  induction rs with
  | nil => intro a; simp
  | cons r t ih =>
    intro a
    rw [List.foldl_cons, foldl_scoreStep, ih]
    simp [add_assoc]

/-- The scores of a whole result set in traversal order. -/
def scoredOfQuestions (qs : List QuestionRec) : List ℚ :=
  (qs.map (fun q => (q.responses.map (fun r => scoredOfFeedback r.feedback)).flatten)).flatten

theorem foldl_questions (qs : List QuestionRec) :
    ∀ a : ℚ × Nat,
      qs.foldl (fun a q => q.responses.foldl (fun a r => r.feedback.foldl scoreStep a) a) a
        = (a.1 + (scoredOfQuestions qs).sum, a.2 + (scoredOfQuestions qs).length) := by
  induction qs with
  | nil => intro a; simp [scoredOfQuestions]
  | cons q t ih =>
    intro a
    rw [List.foldl_cons, foldl_responses, ih]
    simp [scoredOfQuestions, add_assoc]

theorem filter_scores_responses (rs : List ResponseRec) :
    (((rs.map (fun r => r.feedback)).flatten.filterMap (fun f => f.confidence_score)).filter
        (fun c => c ≠ 0))
      = (rs.map (fun r => scoredOfFeedback r.feedback)).flatten := by
  induction rs with
  | nil => rfl
  | cons r t ih => simp [List.filterMap_append, List.filter_append, ih, scoredOfFeedback,
      Function.comp_def]

theorem filter_scores_questions (qs : List QuestionRec) :
    (presentConfidenceScores qs).filter (fun c => c ≠ 0) = scoredOfQuestions qs := by
  unfold presentConfidenceScores allFeedbackRecs scoredOfQuestions
  induction qs with
  | nil => rfl
  | cons q t ih =>
    simp only [List.map_cons, List.flatten_cons, List.filterMap_append, List.filter_append, ih]
    rw [filter_scores_responses]

/-- `getOverallScore` computes the mean of the JS-truthy (present and
non-zero) confidence scores, scaled by 100, with 0 when none exist. -/
theorem getOverallScore_eq_truthy (qs : List QuestionRec) :
    getOverallScore qs = specOverallScoreTruthy qs := by
  unfold getOverallScore specOverallScoreTruthy
  rw [foldl_questions, filter_scores_questions]
  simp only [zero_add]
  by_cases h : scoredOfQuestions qs = []
  · simp [h]
  · have hl : 0 < (scoredOfQuestions qs).length := List.length_pos.mpr h
    simp [h, hl]

/-- One question, one text response, two feedback rows scored 0 and 0.8:
the truthiness test `if (feedback.confidence_score)` skips the 0. -/
def zeroScoreExample : List QuestionRec :=
  [ { question_text := "q1", question_type := none,
      responses := [
        { response_type := "text", response_text := some "answer", media_url := none,
          feedback := [
            { feedback_text := "f1", strengths := none, improvement_areas := none,
              confidence_score := some 0 },
            { feedback_text := "f2", strengths := none, improvement_areas := none,
              confidence_score := some (4 / 5) } ] } ] } ]

/-- Two questions whose single feedback rows carry confidence scores 0.5 and
0.9, the instance named by the spec. -/
def halfNineExample : List QuestionRec :=
  [ { question_text := "q1", question_type := none,
      responses := [
        { response_type := "text", response_text := some "a1", media_url := none,
          feedback := [
            { feedback_text := "f1", strengths := none, improvement_areas := none,
              confidence_score := some (1 / 2) } ] } ] },
    { question_text := "q2", question_type := none,
      responses := [
        { response_type := "text", response_text := some "a2", media_url := none,
          feedback := [
            { feedback_text := "f2", strengths := none, improvement_areas := none,
              confidence_score := some (9 / 10) } ] } ] } ]

/-- Claim C7, counterexample: on feedback scored `[0, 0.8]` the code returns
80 (the 0 is skipped by JS truthiness) while the mean of all PRESENT
confidence scores scaled to 0-100 is 40, so the claim as stated is false. -/
theorem overall_score_skips_zero_confidence :
    getOverallScore zeroScoreExample = 80 ∧ specOverallScorePresent zeroScoreExample = 40 := by
  constructor <;>
    norm_num [getOverallScore, scoreStep, zeroScoreExample, specOverallScorePresent,
      presentConfidenceScores, allFeedbackRecs, List.filterMap_cons, List.cons_ne_nil]

/-- Claim C7, amended: the overall score is the mean of all present and
non-zero confidence scores scaled to 0-100 (a stored score of exactly 0 is
skipped by the truthiness test), 0 when no such score exists, and the
spec-named instance with scores 0.5 and 0.9 yields 70. -/
theorem overall_score_truthy_mean :
    (∀ qs : List QuestionRec, getOverallScore qs = specOverallScoreTruthy qs) ∧
    getOverallScore halfNineExample = 70 ∧ getOverallScore [] = 0 := by
  refine ⟨getOverallScore_eq_truthy, ?_, ?_⟩
  · norm_num [getOverallScore, scoreStep, halfNineExample]
  · norm_num [getOverallScore]

/-- An interviews-table row as the session logic touches it: the status and
the completion timestamp. -/
structure InterviewRow where
  status : String
  completed_at : Option String
deriving DecidableEq

/-- `completeInterview` (server action, page.tsx part lines 494-515): it
updates status to `completed` and stamps `completed_at`, but never inspects
the update result, so a failed write (`dbOk = false`) still returns success;
only a thrown exception (`exn = true`, raised before the write) reaches the
catch and returns failure. Result: the row after the call and the returned
success flag. -/
def completeInterview (iv : InterviewRow) (now : String) (exn dbOk : Bool) :
    InterviewRow × Bool :=
  if exn then (iv, false)
  else (if dbOk then { status := "completed", completed_at := some now } else iv, true)

/-- The client-visible outcome of one `handleNextQuestion` call
(interview-session.tsx lines 48-76): the cursor, the completion flag, the
interview row, whether the outer catch ran (error toast, step failed), and
whether the inner catch of `saveResponse` ran (warning toast). -/
structure AdvanceOutcome where
  idx : Nat
  isCompleted : Bool
  interview : InterviewRow
  stepFailed : Bool
  feedbackWarning : Bool
deriving DecidableEq

/-- `handleNextQuestion` together with `saveResponse` and
`completeInterviewSession` (interview-session.tsx lines 48-176), with the
effectful calls replaced by explicit outcomes:
`needsUpload`/`uploadOk` model the media upload inside `saveResponse`, whose
error is thrown OUTSIDE the inner try and therefore reaches the outer catch
of `handleNextQuestion`; `saveOk` models the success flag of
`saveResponseWithFeedback`, whose failure is thrown INSIDE the inner
try/catch of `saveResponse` and swallowed there (warning toast only, the
control flow continues); `completeExn`/`completeDbOk` feed
`completeInterview` above, and a failed completion result is thrown and
reaches the outer catch. -/
def handleNextQuestion (n idx : Nat) (ic0 : Bool) (iv : InterviewRow) (now : String)
    (needsUpload uploadOk saveOk completeExn completeDbOk : Bool) : AdvanceOutcome :=
  if n <= idx then
    { idx := idx, isCompleted := ic0, interview := iv,
      stepFailed := false, feedbackWarning := false }
  else if needsUpload && !uploadOk then
    { idx := idx, isCompleted := ic0, interview := iv,
      stepFailed := true, feedbackWarning := false }
  else if idx < n - 1 then
    { idx := idx + 1, isCompleted := ic0, interview := iv,
      stepFailed := false, feedbackWarning := !saveOk }
  else
    match completeInterview iv now completeExn completeDbOk with
    | (ivNew, true) =>
      { idx := idx, isCompleted := true, interview := ivNew,
        stepFailed := false, feedbackWarning := !saveOk }
    | (ivNew, false) =>
      { idx := idx, isCompleted := ic0, interview := ivNew,
        stepFailed := true, feedbackWarning := !saveOk }

/-- The initial question cursor of `InterviewSession`
(interview-session.tsx line 28): `useState(0)`, whatever interview and
question list the component receives — no persisted Response is consulted. -/
def initialCursorIndex (interview : InterviewRow) (questions : List GenQuestion) : Nat := 0

/-- Stated from the claim: on resume the cursor should start at the first of
the `n` questions that has no persisted Response, or at 0 when none has
one. -/
def specResumeCursor (n : Nat) (hasResponse : Nat → Bool) : Nat :=
  ((List.range n).filter (fun i => !hasResponse i)).headD 0

/-- A two-question interview whose first question already has a persisted
Response. -/
def twoQuestions : List GenQuestion :=
  [ { question_text := "qA", question_type := "general" },
    { question_text := "qB", question_type := "general" } ]

/-- Claim C3, counterexample: with question 0 answered and question 1 not,
the claimed resume rule puts the cursor at 1, but the component mounts with
cursor 0 — `useState(0)` never consults the persisted Responses. -/
theorem resume_cursor_counterexample :
    initialCursorIndex { status := "in_progress", completed_at := none } twoQuestions = 0 ∧
    specResumeCursor 2 (fun i => i == 0) = 1 ∧
    initialCursorIndex { status := "in_progress", completed_at := none } twoQuestions ≠
      specResumeCursor 2 (fun i => i == 0) := by
  decide

/-- Claim C3, amended: resuming an in_progress Interview always starts the
cursor at 0, for every Interview and every set of already-persisted
Responses (the component never reads them). -/
theorem resume_cursor_always_zero (iv : InterviewRow) (qs : List GenQuestion) :
    initialCursorIndex iv qs = 0 :=
  rfl

/-- Claim C1, counterexample: a failing `saveResponseWithFeedback` sub-step
(persisting the response / transcription / feedback, `saveOk = false`) is
swallowed by the inner catch of `saveResponse`: on question 0 of 3 the
cursor still advances to 1 with no step failure reported, and on the last
question the interview is still marked completed. -/
theorem save_failure_still_advances :
    (handleNextQuestion 3 0 false { status := "in_progress", completed_at := none } "t"
        false true false false true).idx = 1 ∧
    (handleNextQuestion 3 0 false { status := "in_progress", completed_at := none } "t"
        false true false false true).stepFailed = false ∧
    (handleNextQuestion 3 0 false { status := "in_progress", completed_at := none } "t"
        false true false false true).feedbackWarning = true ∧
    (handleNextQuestion 3 2 false { status := "in_progress", completed_at := none } "t"
        false true false false true).interview.status = "completed" ∧
    (handleNextQuestion 3 2 false { status := "in_progress", completed_at := none } "t"
        false true false false true).isCompleted = true := by
  decide

/-- Claim C1, amended: only a media-upload failure blocks the per-question
advance — then the cursor does not move, the interview row is untouched and
the failure is reported to the user; a failure of the
response/transcription/feedback persistence step (`saveOk = false`) is
caught client-side with a warning and the advance still happens. -/
theorem advance_failure_semantics (n idx : Nat) (ic0 : Bool) (iv : InterviewRow)
    (now : String) (saveOk completeExn completeDbOk : Bool) (hn : idx < n) :
    ((handleNextQuestion n idx ic0 iv now true false saveOk completeExn completeDbOk).idx = idx ∧
     (handleNextQuestion n idx ic0 iv now true false saveOk completeExn completeDbOk).isCompleted = ic0 ∧
     (handleNextQuestion n idx ic0 iv now true false saveOk completeExn completeDbOk).interview = iv ∧
     (handleNextQuestion n idx ic0 iv now true false saveOk completeExn completeDbOk).stepFailed = true) ∧
    (idx < n - 1 →
      (handleNextQuestion n idx ic0 iv now false true false completeExn completeDbOk).idx = idx + 1 ∧
      (handleNextQuestion n idx ic0 iv now false true false completeExn completeDbOk).stepFailed = false) := by
  have h1 : ¬ n <= idx := by omega
  constructor
  · simp [handleNextQuestion, h1]
  · intro hlt
    simp [handleNextQuestion, h1, hlt]

/-- Closed witness for the amended claim C1 at a concrete state. -/
theorem advance_failure_semantics_witness :
    ((handleNextQuestion 3 1 false { status := "in_progress", completed_at := none } "t"
        true false true false true).idx = 1 ∧
     (handleNextQuestion 3 1 false { status := "in_progress", completed_at := none } "t"
        true false true false true).isCompleted = false ∧
     (handleNextQuestion 3 1 false { status := "in_progress", completed_at := none } "t"
        true false true false true).interview = { status := "in_progress", completed_at := none } ∧
     (handleNextQuestion 3 1 false { status := "in_progress", completed_at := none } "t"
        true false true false true).stepFailed = true) ∧
    (1 < 3 - 1 →
      (handleNextQuestion 3 1 false { status := "in_progress", completed_at := none } "t"
        false true false false true).idx = 1 + 1 ∧
      (handleNextQuestion 3 1 false { status := "in_progress", completed_at := none } "t"
        false true false false true).stepFailed = false) :=
  advance_failure_semantics 3 1 false { status := "in_progress", completed_at := none } "t"
    true false true (by omega)

/-- Claim C4, counterexample: a completion-update storage-write failure is
masked — `completeInterview` with a failed write still returns success and
leaves the row in_progress; likewise a failed
response/feedback persistence (`saveOk = false`) does not fail the step. -/
theorem storage_write_failure_masked :
    completeInterview { status := "in_progress", completed_at := none } "t" false false
      = ({ status := "in_progress", completed_at := none }, true) ∧
    (handleNextQuestion 2 0 false { status := "in_progress", completed_at := none } "t"
        false true false false true).stepFailed = false := by
  decide

/-- Claim C4, amended: the orchestrator always masks generation-backend
failures (analysis and transcription are total and return the fixed
defaults), and it propagates media-upload storage failures; but it does NOT
never-mask storage-write failures: a completion-update write failure is
reported as success, and response/feedback persistence failures are
swallowed client-side (see the amended claim C1). -/
theorem propagation_policy :
    (∀ q r ty j, analyzeResponse q r ty j = generateDefaultFeedback) ∧
    (∀ u t, transcribeMedia u t = defaultTranscript) ∧
    (∀ iv now, completeInterview iv now false false = (iv, true)) ∧
    (∀ (n idx : Nat) (ic0 : Bool) (iv : InterviewRow) (now : String)
        (saveOk ce cd : Bool), idx < n →
      (handleNextQuestion n idx ic0 iv now true false saveOk ce cd).stepFailed = true ∧
      (handleNextQuestion n idx ic0 iv now true false saveOk ce cd).idx = idx ∧
      (handleNextQuestion n idx ic0 iv now true false saveOk ce cd).interview = iv) := by
  refine ⟨fun q r ty j => rfl, fun u t => rfl, fun iv now => rfl, ?_⟩
  intro n idx ic0 iv now saveOk ce cd hn
  have h1 : ¬ n <= idx := by omega
  simp [handleNextQuestion, h1]

/-- Claim C5: with every effectful call succeeding, advancing on a non-last
question increments the cursor by exactly 1 and leaves the in_progress row
untouched, while advancing on the last question marks the interview
completed with a non-null completed_at. -/
theorem advance_success_semantics (n idx : Nat) (ic0 : Bool) (iv : InterviewRow)
    (now : String) (needsUpload : Bool) (hn : idx < n)
    (hs : iv.status = "in_progress") :
    (idx < n - 1 →
      (handleNextQuestion n idx ic0 iv now needsUpload true true false true).idx = idx + 1 ∧
      (handleNextQuestion n idx ic0 iv now needsUpload true true false true).interview = iv ∧
      (handleNextQuestion n idx ic0 iv now needsUpload true true false true).interview.status
        = "in_progress") ∧
    (idx = n - 1 →
      (handleNextQuestion n idx ic0 iv now needsUpload true true false true).interview.status
        = "completed" ∧
      (handleNextQuestion n idx ic0 iv now needsUpload true true false true).interview.completed_at
        = some now ∧
      (handleNextQuestion n idx ic0 iv now needsUpload true true false true).interview.completed_at
        ≠ none ∧
      (handleNextQuestion n idx ic0 iv now needsUpload true true false true).isCompleted = true) := by
  have h1 : ¬ n <= idx := by omega
  constructor
  · intro hlt
    simp [handleNextQuestion, h1, hlt, hs]
  · intro heq
    have h2 : ¬ idx < n - 1 := by omega
    simp [handleNextQuestion, completeInterview, h1, h2]

/-- Closed witness for claim C5 on the last question of a three-question
interview. -/
theorem advance_success_semantics_witness :
    (2 < 3 - 1 →
      (handleNextQuestion 3 2 false { status := "in_progress", completed_at := none } "t"
        false true true false true).idx = 2 + 1 ∧
      (handleNextQuestion 3 2 false { status := "in_progress", completed_at := none } "t"
        false true true false true).interview = { status := "in_progress", completed_at := none } ∧
      (handleNextQuestion 3 2 false { status := "in_progress", completed_at := none } "t"
        false true true false true).interview.status = "in_progress") ∧
    (2 = 3 - 1 →
      (handleNextQuestion 3 2 false { status := "in_progress", completed_at := none } "t"
        false true true false true).interview.status = "completed" ∧
      (handleNextQuestion 3 2 false { status := "in_progress", completed_at := none } "t"
        false true true false true).interview.completed_at = some "t" ∧
      (handleNextQuestion 3 2 false { status := "in_progress", completed_at := none } "t"
        false true true false true).interview.completed_at ≠ none ∧
      (handleNextQuestion 3 2 false { status := "in_progress", completed_at := none } "t"
        false true true false true).isCompleted = true) :=
  advance_success_semantics 3 2 false { status := "in_progress", completed_at := none } "t"
    false (by omega) rfl

/-- An interviews-table row as inserted by `createInterviewWithQuestions`
(page.tsx part lines 380-391). -/
structure IvInsertRow where
  id : Nat
  title : String
  job_role : String
  industry : Option String
  difficulty : Option String
  status : String
deriving DecidableEq

/-- A questions-table row as built by `generateAndSaveQuestions`
(page.tsx part lines 264-269). -/
structure QuestionRow where
  interview_id : Nat
  question_text : String
  question_type : String
  order_number : Nat
deriving DecidableEq

/-- The two tables interview creation writes. -/
structure CreateDb where
  interviews : List IvInsertRow
  questions : List QuestionRow
deriving DecidableEq

/-- JS `s || null` on a form string: the empty string becomes null. -/
def optOfForm (s : String) : Option String :=
  if s = "" then none else some s

/-- The question rows `generateAndSaveQuestions` builds:
`order_number = index + 1` over the generated sequence. -/
def generatedQuestionRows (seed : Nat → Nat) (interviewId : Nat) (jobRole : String)
    (industry difficulty : Option String) : List QuestionRow :=
  (generateInterviewQuestions seed jobRole industry difficulty 5).enum.map
    (fun p => { interview_id := interviewId, question_text := p.2.question_text,
                question_type := p.2.question_type, order_number := p.1 + 1 })

/-- `generateAndSaveQuestions` (page.tsx part lines 238-282) on the
questions table: generation itself cannot fail (it falls back to the default
questions), so the only failure is the bulk insert; a failed insert
(`insertOk = false`) is caught and returned as `success = false` with no
rows written. -/
def generateAndSaveQuestions (seed : Nat → Nat) (db : List QuestionRow)
    (interviewId : Nat) (jobRole : String) (industry difficulty : Option String)
    (insertOk : Bool) : List QuestionRow × Bool :=
  if insertOk then
    (db ++ generatedQuestionRows seed interviewId jobRole industry difficulty, true)
  else (db, false)

/-- The interview row `createInterviewWithQuestions` inserts. -/
def createdInterviewRow (newId : Nat) (title jobRole industry difficulty : String) :
    IvInsertRow :=
  { id := newId, title := title, job_role := jobRole,
    industry := optOfForm industry, difficulty := optOfForm difficulty,
    status := "in_progress" }

/-- `createInterviewWithQuestions` (page.tsx part lines 370-413): insert the
interview with status in_progress, then generate and insert its questions.
A failed interview insert (`ivInsertOk = false`) writes nothing and surfaces
the failure; a failed question insert (`qInsertOk = false`) surfaces the
failure to the caller but attempts NO cleanup, so the interview row stays.
Result: the database afterwards, the returned success flag and the returned
interview id. -/
def createInterviewWithQuestions (seed : Nat → Nat) (db : CreateDb) (newId : Nat)
    (title jobRole industry difficulty : String) (ivInsertOk qInsertOk : Bool) :
    CreateDb × Bool × Option Nat :=
  if ivInsertOk then
    match generateAndSaveQuestions seed db.questions newId jobRole
        (optOfForm industry) (optOfForm difficulty) qInsertOk with
    | (qdb, true) =>
      ({ interviews := db.interviews ++ [createdInterviewRow newId title jobRole industry difficulty],
         questions := qdb }, true, some newId)
    | (qdb, false) =>
      ({ interviews := db.interviews ++ [createdInterviewRow newId title jobRole industry difficulty],
         questions := qdb }, false, none)
  else (db, false, none)

/-- Claim C2, counterexample: on an empty database, a creation whose
question insert fails returns failure but leaves the interview row persisted
with an empty question set — it is retrievable (the dashboard lists all
interviews) and no cleanup is attempted, so creation is not atomic. -/
theorem create_leaves_partial_interview :
    createInterviewWithQuestions (fun _ => 0) { interviews := [], questions := [] } 1
        "T" "Nurse" "" "" true false
      = ({ interviews :=
             [{ id := 1, title := "T", job_role := "Nurse", industry := none,
                difficulty := none, status := "in_progress" }],
           questions := [] }, false, none) := by
  decide

/-- Claim C2, amended: if the interview insert fails nothing is persisted
and the failure is surfaced; if question insertion fails the failure is
surfaced to the caller but no cleanup is attempted — the Interview row
remains retrievable with an empty Question set; on success the Interview is
persisted together with its full generated Question set. -/
theorem create_interview_failure_semantics (seed : Nat → Nat) (db : CreateDb) (newId : Nat)
    (title jobRole industry difficulty : String) :
    (∀ qOk, createInterviewWithQuestions seed db newId title jobRole industry difficulty false qOk
        = (db, false, none)) ∧
    (createInterviewWithQuestions seed db newId title jobRole industry difficulty true false
        = ({ interviews := db.interviews ++ [createdInterviewRow newId title jobRole industry difficulty],
             questions := db.questions }, false, none)) ∧
    (createInterviewWithQuestions seed db newId title jobRole industry difficulty true true
        = ({ interviews := db.interviews ++ [createdInterviewRow newId title jobRole industry difficulty],
             questions := db.questions ++ generatedQuestionRows seed newId jobRole
               (optOfForm industry) (optOfForm difficulty) }, true, some newId)) :=
  ⟨fun _ => rfl, rfl, rfl⟩

/-- A responses-table row. -/
structure ResponseRow where
  id : Nat
  question_id : Nat
  response_type : String
  response_text : Option String
  media_url : Option String
deriving DecidableEq

/-- Supabase `.single()` as the server action consumes it: `data` only when
exactly one row matches; with zero or several matches the error is
destructured away and `data` is null. -/
def singleRow (rows : List ResponseRow) : Option ResponseRow :=
  match rows with
  | [r] => some r
  | _ => none

/-- The response upsert of `saveResponseWithFeedback` (page.tsx part lines
434-470): look up an existing response by question id with `.single()`;
if found, update it in place (the update result is not checked), otherwise
insert a new row with a fresh id. Returns the table and the `responseId`
the rest of the action uses. -/
def upsertResponse (db : List ResponseRow) (freshId qid : Nat) (rt : String)
    (rtext murl : Option String) : List ResponseRow × Nat :=
  match singleRow (db.filter (fun r => r.question_id == qid)) with
  | some ex =>
    (db.map (fun r =>
      if r.id == ex.id then
        { r with response_type := rt, response_text := rtext, media_url := murl }
      else r), ex.id)
  | none =>
    (db ++ [{ id := freshId, question_id := qid, response_type := rt,
              response_text := rtext, media_url := murl }], freshId)

/-- The transcription write-back of `analyzeAndSaveFeedback` (page.tsx part
lines 306-314): for an audio/video response with a media url and no directly
supplied text, the fixed transcript is stored onto the response row before
analysis. -/
def transcriptionUpdate (db : List ResponseRow) (rid : Nat) (rt : String)
    (rtext murl : Option String) : List ResponseRow :=
  if (rt == "video" || rt == "audio") && jsTruthyStr murl && !jsTruthyStr rtext then
    db.map (fun r =>
      if r.id == rid then { r with response_text := some defaultTranscript } else r)
  else db

/-- The text left on the response row once `saveResponseWithFeedback`
returns: the fixed transcript for a media response without supplied text,
otherwise the submitted text. -/
def resolvedText (rt : String) (rtext murl : Option String) : Option String :=
  if (rt == "video" || rt == "audio") && jsTruthyStr murl && !jsTruthyStr rtext then
    some defaultTranscript
  else rtext

/-- The responses-table effect of `saveResponseWithFeedback` (page.tsx part
lines 416-491): upsert the response by question id, then let
`analyzeAndSaveFeedback` write the transcription back. The response row is
persisted before feedback generation, so this effect is the same whether or
not the feedback step afterwards succeeds. -/
def saveResponseRows (db : List ResponseRow) (freshId qid : Nat) (rt : String)
    (rtext murl : Option String) : List ResponseRow × Nat :=
  match upsertResponse db freshId qid rt rtext murl with
  | (db1, rid) => (transcriptionUpdate db1 rid rt rtext murl, rid)

theorem singleRow_some (l : List ResponseRow) (r : ResponseRow)
    (h : singleRow l = some r) : l = [r] := by
  cases l with
  | nil => exact absurd h (by simp [singleRow])
  | cons a t =>
    cases t with
    | nil =>
      have : a = r := by simpa [singleRow] using h
      rw [this]
    | cons b t2 => exact absurd h (by simp [singleRow])

theorem singleRow_none_nil (l : List ResponseRow) (h : singleRow l = none)
    (hl : l.length ≤ 1) : l = [] := by
  cases l with
  | nil => rfl
  | cons a t =>
    cases t with
    | nil => exact absurd h (by simp [singleRow])
    | cons b t2 => simp at hl

/-- Mapping a row transformation that keeps `question_id` commutes with
filtering by question id. -/
theorem filter_qid_map (qid : Nat) (f : ResponseRow → ResponseRow)
    (hf : ∀ r, (f r).question_id = r.question_id) :
    ∀ db : List ResponseRow,
      (db.map f).filter (fun r => r.question_id == qid)
        = (db.filter (fun r => r.question_id == qid)).map f := by
  intro db
  induction db with
  | nil => rfl
  | cons a t ih =>
    by_cases h : a.question_id = qid <;>
      (simp only [List.map_cons, List.filter_cons]
       rw [hf a]
       simp [h, ih])

theorem transcriptionUpdate_preserves_qid (rid : Nat) (rt : String)
    (rtext murl : Option String) (r : ResponseRow) :
    ((fun r => if r.id == rid then { r with response_text := some defaultTranscript }
      else r) r).question_id = r.question_id := by
  by_cases h : r.id == rid <;> simp [h]

/-- One `saveResponseWithFeedback`: afterwards the question has exactly one
response row, carrying the submitted type and media url and the resolved
text, whose id is the reused existing id or the fresh one. -/
theorem saveResponseRows_spec (db : List ResponseRow) (freshId qid : Nat) (rt : String)
    (rtext murl : Option String)
    (hq : (db.filter (fun r => r.question_id == qid)).length ≤ 1) :
    (saveResponseRows db freshId qid rt rtext murl).1.filter (fun r => r.question_id == qid)
      = [{ id := (saveResponseRows db freshId qid rt rtext murl).2, question_id := qid,
           response_type := rt, response_text := resolvedText rt rtext murl,
           media_url := murl }] ∧
    (db.filter (fun r => r.question_id == qid) = [] →
      (saveResponseRows db freshId qid rt rtext murl).2 = freshId) ∧
    (∀ ex, db.filter (fun r => r.question_id == qid) = [ex] →
      (saveResponseRows db freshId qid rt rtext murl).2 = ex.id) := by
  cases hs : singleRow (db.filter (fun r => r.question_id == qid)) with
  | none =>
    have hnil : db.filter (fun r => r.question_id == qid) = [] :=
      singleRow_none_nil _ hs hq
    have hsave : saveResponseRows db freshId qid rt rtext murl
        = (transcriptionUpdate
            (db ++ [{ id := freshId, question_id := qid, response_type := rt,
                      response_text := rtext, media_url := murl }]) freshId rt rtext murl,
           freshId) := by
      simp [saveResponseRows, upsertResponse, hs]
    rw [hsave]
    refine ⟨?_, fun _ => rfl, ?_⟩
    · unfold transcriptionUpdate resolvedText
      by_cases hc : ((rt == "video" || rt == "audio") && jsTruthyStr murl
          && !jsTruthyStr rtext) = true
      · rw [if_pos hc, if_pos hc,
          filter_qid_map qid _ (transcriptionUpdate_preserves_qid freshId rt rtext murl),
          List.filter_append, hnil]
        simp
      · rw [if_neg hc, if_neg hc, List.filter_append, hnil]
        simp
    · intro ex hex
      rw [hnil] at hex
      exact absurd hex (by simp)
  | some ex =>
    have hone : db.filter (fun r => r.question_id == qid) = [ex] := singleRow_some _ _ hs
    have hmem : ex ∈ db.filter (fun r => r.question_id == qid) := by
      rw [hone]
      exact List.mem_singleton_self ex
    have hexq : ex.question_id = qid := by
      simpa using (List.mem_filter.mp hmem).2
    have hsave : saveResponseRows db freshId qid rt rtext murl
        = (transcriptionUpdate
            (db.map (fun r =>
              if r.id == ex.id then
                { r with response_type := rt, response_text := rtext, media_url := murl }
              else r)) ex.id rt rtext murl,
           ex.id) := by
      simp [saveResponseRows, upsertResponse, hs]
    rw [hsave]
    refine ⟨?_, ?_, ?_⟩
    · have hupd : ∀ r : ResponseRow,
          ((fun r => if r.id == ex.id then
              { r with response_type := rt, response_text := rtext, media_url := murl }
            else r) r).question_id = r.question_id := by
        intro r
        by_cases h : r.id == ex.id <;> simp [h]
      unfold transcriptionUpdate resolvedText
      by_cases hc : ((rt == "video" || rt == "audio") && jsTruthyStr murl
          && !jsTruthyStr rtext) = true
      · rw [if_pos hc, if_pos hc,
          filter_qid_map qid _ (transcriptionUpdate_preserves_qid ex.id rt rtext murl),
          filter_qid_map qid _ hupd, hone]
        simp [hexq]
      · rw [if_neg hc, if_neg hc, filter_qid_map qid _ hupd, hone]
        simp [hexq]
    · intro hniln
      rw [hone] at hniln
      exact absurd hniln (by simp)
    · intro ex2 hex2
      rw [hone] at hex2
      have : ex = ex2 := by simpa using hex2
      rw [this]

/-- Claim C6: submitting twice for the same question id leaves exactly one
response row for that question, holding the latest submission (the second
save takes the update branch and preserves the row id the first save used);
the first save itself reuses an existing row id when a response exists and
inserts with the fresh id otherwise. Stated over any table with at most one
existing response for the question, the data-model invariant. -/
theorem response_submission_upserts_by_question (db : List ResponseRow) (qid f1 f2 : Nat)
    (rt1 rt2 : String) (x1 x2 m1 m2 : Option String)
    (hq : (db.filter (fun r => r.question_id == qid)).length ≤ 1) :
    (saveResponseRows (saveResponseRows db f1 qid rt1 x1 m1).1 f2 qid rt2 x2 m2).1.filter
        (fun r => r.question_id == qid)
      = [{ id := (saveResponseRows db f1 qid rt1 x1 m1).2, question_id := qid,
           response_type := rt2, response_text := resolvedText rt2 x2 m2,
           media_url := m2 }] ∧
    (saveResponseRows (saveResponseRows db f1 qid rt1 x1 m1).1 f2 qid rt2 x2 m2).2
      = (saveResponseRows db f1 qid rt1 x1 m1).2 ∧
    (db.filter (fun r => r.question_id == qid) = [] →
      (saveResponseRows db f1 qid rt1 x1 m1).2 = f1) ∧
    (∀ ex, db.filter (fun r => r.question_id == qid) = [ex] →
      (saveResponseRows db f1 qid rt1 x1 m1).2 = ex.id) := by
  obtain ⟨h1, h2, h3⟩ := saveResponseRows_spec db f1 qid rt1 x1 m1 hq
  have hq1 : ((saveResponseRows db f1 qid rt1 x1 m1).1.filter
      (fun r => r.question_id == qid)).length ≤ 1 := by
    rw [h1]
    simp
  obtain ⟨g1, g2, g3⟩ :=
    saveResponseRows_spec (saveResponseRows db f1 qid rt1 x1 m1).1 f2 qid rt2 x2 m2 hq1
  have hid : (saveResponseRows (saveResponseRows db f1 qid rt1 x1 m1).1 f2 qid rt2 x2 m2).2
      = (saveResponseRows db f1 qid rt1 x1 m1).2 := g3 _ h1
  refine ⟨?_, hid, h2, h3⟩
  rw [g1, hid]

/-- Closed witness for claim C6: two text submissions for question 5 on an
empty table. -/
theorem response_submission_upserts_witness :
    (saveResponseRows (saveResponseRows [] 10 5 "text" (some "first") none).1
        11 5 "text" (some "second") none).1.filter (fun r => r.question_id == 5)
      = [{ id := (saveResponseRows [] 10 5 "text" (some "first") none).2, question_id := 5,
           response_type := "text", response_text := resolvedText "text" (some "second") none,
           media_url := none }] ∧
    (saveResponseRows (saveResponseRows [] 10 5 "text" (some "first") none).1
        11 5 "text" (some "second") none).2
      = (saveResponseRows [] 10 5 "text" (some "first") none).2 ∧
    (List.filter (fun r => r.question_id == 5) ([] : List ResponseRow) = [] →
      (saveResponseRows [] 10 5 "text" (some "first") none).2 = 10) ∧
    (∀ ex : ResponseRow,
        List.filter (fun r => r.question_id == 5) ([] : List ResponseRow) = [ex] →
      (saveResponseRows [] 10 5 "text" (some "first") none).2 = ex.id) :=
  response_submission_upserts_by_question [] 5 10 11 "text" "text"
    (some "first") (some "second") none none (by decide)

end MockInterview
